import Mathlib

/-!
Shallow embedding of src/main.py: a FastAPI relay that forwards a prompt to
the OpenRouter chat-completion API, maps upstream error responses to
client-facing HTTP errors, and fires a best-effort n8n webhook alert on
failure paths. The embedding models the generate handler as a pure function
from the outcome of the upstream POST to the HTTP result together with the
list of alert-notifier invocations made during the request, the alert
notifier as a pure function from its configuration and the webhook POST
outcome, and the environment-reload handler as a state transformer on the
two process-wide configuration values.
-/

namespace GPTService

/-- ASCII apostrophe (codepoint 39), used to spell source strings that
contain one. -/
def sq : String := String.singleton (Char.ofNat 39)

/-- JSON values as produced by Response.json in the Python code. Numbers
are modelled as integers; no behaviour relevant to the claims depends on
non-integral numeric payloads. An object is its list of key-value pairs
(parsed JSON objects have distinct keys). -/
inductive Json where
  | null
  | bool (b : Bool)
  | num (n : Int)
  | str (s : String)
  | arr (elems : List Json)
  | obj (fields : List (String × Json))

/-- Python exceptions that can propagate inside the handlers. In the
requests library, Timeout, HTTPError, JSONDecodeError (via
InvalidJSONError, requests 2.27 and later) and plain RequestException are
all RequestException subclasses; httpException models the FastAPI
HTTPException, and otherExc carries the class name of any other exception
(AttributeError, IndexError, KeyError, TypeError, ValidationError, ...). -/
inductive Exc where
  | httpException (status : Nat) (detail : String)
  | timeout
  | httpError (status : Nat) (respText : String)
  | jsonDecodeError (msg : String)
  | requestException (msg : String)
  | otherExc (name : String)
deriving DecidableEq

/-- Membership test of the except clause catching
requests.exceptions.RequestException: Timeout, HTTPError and
JSONDecodeError are subclasses of RequestException in the requests
exception hierarchy. -/
def Exc.isRequestException : Exc → Bool
  | .timeout => true
  | .httpError _ _ => true
  | .jsonDecodeError _ => true
  | .requestException _ => true
  | _ => false

/-- Lookup of a key in the field list of a parsed JSON object. -/
def lookupField : List (String × Json) → String → Option Json
  | [], _ => none
  | (k, v) :: rest, key => if k = key then some v else lookupField rest key

/-- Python d.get(key, default): returns the value or the default on a
dict, raises AttributeError on any non-dict value. -/
def pyDictGet (j : Json) (key : String) (default : Json) : Except Exc Json :=
  match j with
  | .obj fields => .ok ((lookupField fields key).getD default)
  | _ => .error (.otherExc "AttributeError")

/-- Python d.get(key) with no default: returns the value or None on a
dict, raises AttributeError on any non-dict value. -/
def pyDictGetOpt (j : Json) (key : String) : Except Exc (Option Json) :=
  match j with
  | .obj fields => .ok (lookupField fields key)
  | _ => .error (.otherExc "AttributeError")

/-- Python x[0] on a parsed JSON value: first element of a non-empty list,
IndexError on an empty list or empty string, first character of a
non-empty string, KeyError on a dict (parsed JSON keys are strings, so the
integer key 0 is absent), TypeError on non-subscriptable values. -/
def pyIndexZero (j : Json) : Except Exc Json :=
  match j with
  | .arr (x :: _) => .ok x
  | .arr [] => .error (.otherExc "IndexError")
  | .str s =>
    match s.data with
    | c :: _ => .ok (.str (String.singleton c))
    | [] => .error (.otherExc "IndexError")
  | .obj _ => .error (.otherExc "KeyError")
  | _ => .error (.otherExc "TypeError")

/-- Python truthiness of a parsed JSON value. -/
def pyTruthy : Json → Bool
  | .null => false
  | .bool b => b
  | .num n => n != 0
  | .str s => !(s == "")
  | .arr elems => !elems.isEmpty
  | .obj fields => !fields.isEmpty

/-- Python values supporting v[:100] slicing among parsed JSON values:
strings and lists. -/
def pySliceable : Json → Bool
  | .str _ => true
  | .arr _ => true
  | _ => false

mutual

/-- Python repr of a parsed JSON value (single-quoted strings; escaping of
quote characters inside strings is not modelled, no claim depends on it). -/
def pyRepr : Json → String
  | .null => "None"
  | .bool true => "True"
  | .bool false => "False"
  | .num n => toString n
  | .str s => sq ++ s ++ sq
  | .arr elems => "[" ++ String.intercalate ", " (pyReprList elems) ++ "]"
  | .obj fields => "\x7b" ++ String.intercalate ", " (pyReprFields fields) ++ "\x7d"

/-- Reprs of the elements of a JSON array. -/
def pyReprList : List Json → List String
  | [] => []
  | x :: xs => pyRepr x :: pyReprList xs

/-- Reprs of the fields of a JSON object. -/
def pyReprFields : List (String × Json) → List String
  | [] => []
  | kv :: fields => (sq ++ kv.1 ++ sq ++ ": " ++ pyRepr kv.2) :: pyReprFields fields

end

/-- Python str of a parsed JSON value, as used by f-string interpolation:
identity on strings, repr-like rendering otherwise. -/
def pyStr : Json → String
  | .str s => s
  | j => pyRepr j

/-- Python truthiness of an optional string configuration value (None and
the empty string are falsy). -/
def pyFalsyStr : Option String → Bool
  | none => true
  | some s => s == ""

/-- Python f-string rendering of an optional string (None prints as
None). -/
def pyFStrOpt : Option String → String
  | none => "None"
  | some s => s

-- --- Configuration constants of src/main.py ---

def OPENROUTER_API_URL : String := "https://openrouter.ai/api/v1/chat/completions"

def TARGET_MODEL : String := "openai/gpt-4o"

def MAX_TOKENS : Nat := 1000

/-- Headers of the upstream POST built at the top of generate_text:
f-string interpolation of the configured key into the bearer header. -/
def generate_headers (key : Option String) : List (String × String) :=
  [("Authorization", "Bearer " ++ pyFStrOpt key), ("Content-Type", "application/json")]

/-- The upstream request payload built in generate_text from the fixed
model identifier, the caller text and the token cap. -/
def upstreamData (userText : String) : Json :=
  .obj [("model", .str TARGET_MODEL),
        ("messages", .arr [.obj [("role", .str "user"), ("content", .str userText)]]),
        ("max_tokens", .num 1000)]

-- --- The generate handler ---

/-- Outcome of the upstream requests.post call as observed by
generate_text: a response carrying the status code, the result of parsing
its body as JSON (error carries the str of the JSONDecodeError raised by
Response.json) and its raw text, or a raised Timeout, another raised
RequestException, or any other raised exception. -/
inductive UpstreamResult where
  | response (status : Nat) (body : Except String Json) (text : String)
  | timeoutErr
  | requestErr (msg : String)
  | otherErr (name : String)

/-- The request_data argument passed to trigger_n8n_alert: either the
upstream request dict data, or the dict holding data together with the
upstream response text (used in the HTTPError clause). -/
inductive AlertData where
  | requestData
  | requestAndResponse (respText : String)
deriving DecidableEq

/-- One invocation of trigger_n8n_alert: its error_message argument and
its request_data argument. -/
structure AlertCall where
  errorMessage : String
  data : AlertData
deriving DecidableEq

/-- Result of the generate handler: a 200 response with generated_text, or
an HTTPException surfaced with its status code and detail string. -/
inductive GenerateResult where
  | success (generated_text : String)
  | error (status : Nat) (detail : String)
deriving DecidableEq

/-- Status code of an error result, none on success. -/
def errStatus : GenerateResult → Option Nat
  | .success _ => none
  | .error st _ => some st

/-- Detail string of the 402 credit branch: the message extracted from the
error field of the upstream JSON body (with dict-get defaults as in the
source) spliced into the account-credit guidance text. -/
def creditDetail (errorData : Json) : Except Exc String := do
  let errField ← pyDictGet errorData "error" (.obj [])
  let msgField ← pyDictGet errField "message" (.str "Insufficient credits")
  pure ("OpenRouter API credit issue: " ++ pyStr msgField ++
    ". Please visit https://openrouter.ai/settings/credits to upgrade your account.")

/-- The content extraction of line 131 of src/main.py:
response_json.get("choices", [\x7b\x7d])[0].get("message", \x7b\x7d).get("content"),
with Python exception behaviour at every step. -/
def extractContent (responseJson : Json) : Except Exc (Option Json) := do
  let choices ← pyDictGet responseJson "choices" (.arr [.obj []])
  let first ← pyIndexZero choices
  let message ← pyDictGet first "message" (.obj [])
  pyDictGetOpt message "content"

/-- Pydantic validation of GPTResponse(generated_text=...): accepts a
string, raises ValidationError otherwise (only reached for truthy
sliceable values, so only for non-empty strings and non-empty lists). -/
def validateGeneratedText (j : Json) : Except Exc String :=
  match j with
  | .str s => .ok s
  | _ => .error (.otherExc "ValidationError")

def timeoutDetail : String := "OpenRouter API request timed out."

def invalidResponseDetail : String := "Could not get a valid response from API."

/-- The user-facing detail of the 502 response, differentiated by the
upstream status code as in lines 161-170 of src/main.py. -/
def detail502 (status : Nat) : String :=
  if status = 401 then
    "Authentication error: Your OpenRouter API key is invalid or expired. Please check your API key in the .env file."
  else if status = 403 then
    "Authorization error: You don" ++ sq ++ "t have permission to use this model or API. Please check your OpenRouter account."
  else if status = 429 then
    "Rate limit exceeded: You" ++ sq ++ "ve sent too many requests to OpenRouter API. Please try again later."
  else if status = 500 then
    "OpenRouter API server error. Please try again later."
  else
    "Error communicating with OpenRouter API: Status code " ++ toString status

/-- The 503 network-error detail, mentioning the current log file name. -/
def networkDetail (logFilename : String) : String :=
  "A network error occurred while connecting to the API. Please check your internet connection. Logs are saved in " ++ logFilename

/-- The generic 500 detail of the final except clause. -/
def unexpectedDetail (logFilename : String) : String :=
  "An unexpected error occurred on the server. Please check the logs at " ++ logFilename ++ " for more details."

/-- The try block of generate_text (lines 113-142 of src/main.py): from
the upstream outcome, the alert calls made inside the block and either the
generated text or the exception escaping the block. Status 402 is checked
first; response.raise_for_status raises HTTPError exactly for statuses in
400..599; then the body is parsed, the content extracted, checked for
truthiness, sliced for logging, and validated by the response model. -/
def tryBody (up : UpstreamResult) : List AlertCall × Except Exc String :=
  match up with
  | .timeoutErr => ([], .error .timeout)
  | .requestErr m => ([], .error (.requestException m))
  | .otherErr n => ([], .error (.otherExc n))
  | .response status body text =>
    if status = 402 then
      match body with
      | .error m => ([], .error (.jsonDecodeError m))
      | .ok errorData =>
        match creditDetail errorData with
        | .ok d => ([], .error (.httpException 402 d))
        | .error e => ([], .error e)
    else if 400 ≤ status ∧ status < 600 then
      ([], .error (.httpError status text))
    else
      match body with
      | .error m => ([], .error (.jsonDecodeError m))
      | .ok responseJson =>
        match extractContent responseJson with
        | .error e => ([], .error e)
        | .ok none =>
          ([⟨"Empty or invalid response received from OpenRouter.", .requestData⟩],
           .error (.httpException 500 invalidResponseDetail))
        | .ok (some content) =>
          if pyTruthy content = false then
            ([⟨"Empty or invalid response received from OpenRouter.", .requestData⟩],
             .error (.httpException 500 invalidResponseDetail))
          else if pySliceable content = false then
            ([], .error (.otherExc "TypeError"))
          else
            match validateGeneratedText content with
            | .ok s => ([], .ok s)
            | .error e => ([], .error e)

/-- The except clauses of generate_text (lines 144-185 of src/main.py), in
source order: HTTPException is re-raised unchanged with no alert; Timeout
alerts and maps to 504; HTTPError alerts with the upstream status and
response text and maps to 502 with a status-differentiated detail;
any other RequestException (including JSONDecodeError) alerts and maps
to 503; any other exception alerts and maps to 500. -/
def handleExc (logFilename : String) : Exc → GenerateResult × List AlertCall
  | .httpException st d => (.error st d, [])
  | .timeout => (.error 504 timeoutDetail, [⟨timeoutDetail, .requestData⟩])
  | .httpError st t =>
    (.error 502 (detail502 st),
     [⟨"OpenRouter API error: " ++ toString st, .requestAndResponse t⟩])
  | .jsonDecodeError m =>
    (.error 503 (networkDetail logFilename), [⟨"Network error: " ++ m, .requestData⟩])
  | .requestException m =>
    (.error 503 (networkDetail logFilename), [⟨"Network error: " ++ m, .requestData⟩])
  | .otherExc n =>
    (.error 500 (unexpectedDetail logFilename), [⟨"Unexpected server error: " ++ n, .requestData⟩])

/-- The generate handler: the try block followed by the except clauses.
Returns the HTTP outcome and the list of trigger_n8n_alert invocations
made during the request, in order. -/
def generate_text (logFilename : String) (up : UpstreamResult) : GenerateResult × List AlertCall :=
  let r := tryBody up
  match r.2 with
  | .ok s => (.success s, r.1)
  | .error e => ((handleExc logFilename e).1, r.1 ++ (handleExc logFilename e).2)

-- --- The alert notifier ---

/-- Outcome of the webhook POST inside trigger_n8n_alert: a response with
its status and text, a raised RequestException, or any other raised
exception. -/
inductive WebhookOutcome where
  | response (status : Nat) (text : String)
  | requestErr (msg : String)
  | otherErr (name : String)

/-- Log record of one trigger_n8n_alert run: no configured URL (nothing
posted), alert delivered (raise_for_status passed), or a failure swallowed
by one of the two except clauses. -/
inductive TriggerLog where
  | noUrl
  | sentOk (status : Nat)
  | requestExcCaught (e : Exc)
  | unexpectedExcCaught (e : Exc)
deriving DecidableEq

/-- The try block of trigger_n8n_alert: the POST followed by
raise_for_status, which raises HTTPError exactly for statuses in
400..599. -/
def triggerPost (wh : WebhookOutcome) : Except Exc Nat :=
  match wh with
  | .response st t => if 400 ≤ st ∧ st < 600 then .error (.httpError st t) else .ok st
  | .requestErr m => .error (.requestException m)
  | .otherErr n => .error (.otherExc n)

/-- The alert notifier (lines 67-87 of src/main.py): no-ops when the
configured webhook URL is falsy, otherwise posts and swallows every
exception in one of the two except clauses. The result is the log record;
an error value would model an exception escaping to the caller. -/
def trigger_n8n_alert (url : Option String) (wh : WebhookOutcome) : Except Exc TriggerLog :=
  if pyFalsyStr url then .ok .noUrl
  else
    match triggerPost wh with
    | .ok st => .ok (.sentOk st)
    | .error e =>
      if e.isRequestException then .ok (.requestExcCaught e)
      else .ok (.unexpectedExcCaught e)

-- --- Startup check and the reload handler ---

/-- Process-wide mutable configuration: the two globals of src/main.py. -/
structure AppState where
  OPENROUTER_API_KEY : Option String
  N8N_WEBHOOK_URL : Option String
deriving DecidableEq

/-- Body returned by the reload handler on success. -/
structure ReloadResponse where
  status : String
  message : String
deriving DecidableEq

/-- The startup guard of lines 27-30 of src/main.py: the process fails
fast when either configuration value is falsy. -/
def startup_check (key url : Option String) : Except String Unit :=
  if pyFalsyStr key then .error "OPENROUTER_API_KEY environment variable is not set."
  else if pyFalsyStr url then .error "N8N_WEBHOOK_URL environment variable is not set."
  else .ok ()

/-- The reload handler (lines 188-208 of src/main.py): re-reads the
environment (env models os.getenv after load_dotenv with override) and
replaces both globals, returning the success body. Nothing in its body can
raise, so the except clause is never taken. -/
def reload_environment (env : String → Option String) (_prev : AppState) :
    AppState × Except Exc ReloadResponse :=
  (⟨env "OPENROUTER_API_KEY", env "N8N_WEBHOOK_URL"⟩,
   .ok ⟨"success", "Environment variables reloaded successfully"⟩)

-- --- Helper lemmas ---

/-- Bind on Except propagates a successful value. -/
theorem except_bind_ok {α β : Type} (a : α) (f : α → Except Exc β) :
    (Except.ok a >>= f) = f a := rfl

/-- Bind on Except propagates an error. -/
theorem except_bind_error {α β : Type} (e : Exc) (f : α → Except Exc β) :
    ((Except.error e : Except Exc α) >>= f) = .error e := rfl

/-- Pure on Except is ok. -/
theorem except_pure {α : Type} (a : α) : (pure a : Except Exc α) = (.ok a : Except Exc α) := rfl

/-- pyDictGet either succeeds or raises AttributeError. -/
theorem pyDictGet_cases (j : Json) (key : String) (d : Json) :
    (∃ v, pyDictGet j key d = .ok v) ∨ pyDictGet j key d = .error (.otherExc "AttributeError") := by
  cases j <;> first | exact Or.inl ⟨_, rfl⟩ | exact Or.inr rfl

/-- pyDictGetOpt either succeeds or raises AttributeError. -/
theorem pyDictGetOpt_cases (j : Json) (key : String) :
    (∃ v, pyDictGetOpt j key = .ok v) ∨ pyDictGetOpt j key = .error (.otherExc "AttributeError") := by
  cases j <;> first | exact Or.inl ⟨_, rfl⟩ | exact Or.inr rfl

/-- pyIndexZero either succeeds or raises some non-RequestException error. -/
theorem pyIndexZero_cases (j : Json) :
    (∃ v, pyIndexZero j = .ok v) ∨ ∃ n, pyIndexZero j = .error (.otherExc n) := by
  cases j with
  | null => exact Or.inr ⟨_, rfl⟩
  | bool b => exact Or.inr ⟨_, rfl⟩
  | num n => exact Or.inr ⟨_, rfl⟩
  | obj fields => exact Or.inr ⟨_, rfl⟩
  | arr elems =>
    cases elems with
    | nil => exact Or.inr ⟨_, rfl⟩
    | cons x xs => exact Or.inl ⟨x, rfl⟩
  | str s =>
    rcases hs : s.data with _ | ⟨c, cs⟩
    · exact Or.inr ⟨"IndexError", by simp [pyIndexZero, hs]⟩
    · exact Or.inl ⟨.str (String.singleton c), by simp [pyIndexZero, hs]⟩

/-- validateGeneratedText either succeeds or raises ValidationError. -/
theorem validateGeneratedText_cases (c : Json) :
    (∃ s, validateGeneratedText c = .ok s) ∨
    validateGeneratedText c = .error (.otherExc "ValidationError") := by
  cases c <;> first | exact Or.inl ⟨_, rfl⟩ | exact Or.inr rfl

/-- creditDetail either succeeds or raises some non-RequestException
error (an AttributeError from a dict-get on a non-dict). -/
theorem creditDetail_cases (j : Json) :
    (∃ d, creditDetail j = .ok d) ∨ ∃ n, creditDetail j = .error (.otherExc n) := by
  rcases pyDictGet_cases j "error" (.obj []) with ⟨v, hv⟩ | hv
  · rcases pyDictGet_cases v "message" (.str "Insufficient credits") with ⟨w, hw⟩ | hw
    · exact Or.inl ⟨"OpenRouter API credit issue: " ++ pyStr w ++
        ". Please visit https://openrouter.ai/settings/credits to upgrade your account.",
        by simp [creditDetail, hv, hw, except_bind_ok, except_pure]⟩
    · exact Or.inr ⟨"AttributeError", by simp [creditDetail, hv, hw, except_bind_ok, except_bind_error]⟩
  · exact Or.inr ⟨"AttributeError", by simp [creditDetail, hv, except_bind_error]⟩

/-- extractContent either succeeds or raises some non-RequestException
error (AttributeError, IndexError, KeyError or TypeError). -/
theorem extractContent_cases (j : Json) :
    (∃ c, extractContent j = .ok c) ∨ ∃ n, extractContent j = .error (.otherExc n) := by
  rcases pyDictGet_cases j "choices" (.arr [.obj []]) with ⟨v, hv⟩ | hv
  · rcases pyIndexZero_cases v with ⟨w, hw⟩ | ⟨n, hw⟩
    · rcases pyDictGet_cases w "message" (.obj []) with ⟨m, hm⟩ | hm
      · rcases pyDictGetOpt_cases m "content" with ⟨c, hc⟩ | hc
        · exact Or.inl ⟨c, by simp [extractContent, hv, hw, hm, hc, except_bind_ok]⟩
        · exact Or.inr ⟨"AttributeError", by simp [extractContent, hv, hw, hm, hc, except_bind_ok]⟩
      · exact Or.inr ⟨"AttributeError", by simp [extractContent, hv, hw, hm, except_bind_ok, except_bind_error]⟩
    · exact Or.inr ⟨n, by simp [extractContent, hv, hw, except_bind_ok, except_bind_error]⟩
  · exact Or.inr ⟨"AttributeError", by simp [extractContent, hv, except_bind_error]⟩

/-- Every run of the generate handler lands in exactly one of three
shapes: a success with no alert, a 402 error with no alert, or an error
with status 500, 502, 503 or 504 with exactly one alert. -/
theorem generate_text_cases (lf : String) (up : UpstreamResult) :
    (∃ s, generate_text lf up = (.success s, [])) ∨
    (∃ d, generate_text lf up = (.error 402 d, [])) ∨
    (∃ st d a, generate_text lf up = (.error st d, [a]) ∧
      (st = 500 ∨ st = 502 ∨ st = 503 ∨ st = 504)) := by
  cases up with
  | timeoutErr =>
    exact Or.inr (Or.inr ⟨504, timeoutDetail, ⟨timeoutDetail, .requestData⟩, rfl, by decide⟩)
  | requestErr m =>
    exact Or.inr (Or.inr ⟨503, networkDetail lf, ⟨"Network error: " ++ m, .requestData⟩, rfl, by decide⟩)
  | otherErr n =>
    exact Or.inr (Or.inr ⟨500, unexpectedDetail lf, ⟨"Unexpected server error: " ++ n, .requestData⟩, rfl, by decide⟩)
  | response status body text =>
    by_cases h402 : status = 402
    · subst h402
      cases body with
      | error m =>
        exact Or.inr (Or.inr ⟨503, networkDetail lf, ⟨"Network error: " ++ m, .requestData⟩, rfl, by decide⟩)
      | ok j =>
        rcases creditDetail_cases j with ⟨d, hd⟩ | ⟨n, hn⟩
        · refine Or.inr (Or.inl ⟨d, ?_⟩)
          simp [generate_text, tryBody, hd, handleExc]
        · refine Or.inr (Or.inr ⟨500, unexpectedDetail lf,
            ⟨"Unexpected server error: " ++ n, .requestData⟩, ?_, by decide⟩)
          simp [generate_text, tryBody, hn, handleExc]
    · by_cases h46 : 400 ≤ status ∧ status < 600
      · refine Or.inr (Or.inr ⟨502, detail502 status,
          ⟨"OpenRouter API error: " ++ toString status, .requestAndResponse text⟩, ?_, by decide⟩)
        simp [generate_text, tryBody, h402, h46, handleExc]
      · cases body with
        | error m =>
          refine Or.inr (Or.inr ⟨503, networkDetail lf,
            ⟨"Network error: " ++ m, .requestData⟩, ?_, by decide⟩)
          simp [generate_text, tryBody, h402, h46, handleExc]
        | ok j =>
          rcases extractContent_cases j with ⟨c, hc⟩ | ⟨n, hn⟩
          · cases c with
            | none =>
              refine Or.inr (Or.inr ⟨500, invalidResponseDetail,
                ⟨"Empty or invalid response received from OpenRouter.", .requestData⟩, ?_, by decide⟩)
              simp [generate_text, tryBody, h402, h46, hc, handleExc]
            | some cj =>
              cases htr : pyTruthy cj with
              | false =>
                refine Or.inr (Or.inr ⟨500, invalidResponseDetail,
                  ⟨"Empty or invalid response received from OpenRouter.", .requestData⟩, ?_, by decide⟩)
                simp [generate_text, tryBody, h402, h46, hc, htr, handleExc]
              | true =>
                cases hsl : pySliceable cj with
                | false =>
                  refine Or.inr (Or.inr ⟨500, unexpectedDetail lf,
                    ⟨"Unexpected server error: " ++ "TypeError", .requestData⟩, ?_, by decide⟩)
                  simp [generate_text, tryBody, h402, h46, hc, htr, hsl, handleExc]
                | true =>
                  rcases validateGeneratedText_cases cj with ⟨s, hs⟩ | hs
                  · exact Or.inl ⟨s, by simp [generate_text, tryBody, h402, h46, hc, htr, hsl, hs]⟩
                  · refine Or.inr (Or.inr ⟨500, unexpectedDetail lf,
                      ⟨"Unexpected server error: " ++ "ValidationError", .requestData⟩, ?_, by decide⟩)
                    simp [generate_text, tryBody, h402, h46, hc, htr, hsl, hs, handleExc]
          · refine Or.inr (Or.inr ⟨500, unexpectedDetail lf,
              ⟨"Unexpected server error: " ++ n, .requestData⟩, ?_, by decide⟩)
            simp [generate_text, tryBody, h402, h46, hn, handleExc]

-- --- Claim theorems ---

/-- C1: when the upstream POST returns a 2xx status and a JSON body whose
choices[0].message.content is a non-empty string, the handler returns 200
with generated_text equal to exactly that string, unmodified, and the
alert notifier is not invoked. -/
theorem c1_success_content_passthrough
    (lf text : String) (status : Nat) (kvs fs gs : List (String × Json))
    (rest : List Json) (s : String)
    (hlo : 200 ≤ status) (hhi : status < 300)
    (hchoices : lookupField kvs "choices" = some (.arr (Json.obj fs :: rest)))
    (hmessage : lookupField fs "message" = some (.obj gs))
    (hcontent : lookupField gs "content" = some (.str s))
    (hne : s ≠ "") :
    generate_text lf (.response status (.ok (.obj kvs)) text) = (.success s, []) := by
  have h402 : status ≠ 402 := by omega
  have h46 : ¬(400 ≤ status ∧ status < 600) := by omega
  have hec : extractContent (.obj kvs) = .ok (some (.str s)) := by
    simp [extractContent, pyDictGet, pyDictGetOpt, pyIndexZero,
      hchoices, hmessage, hcontent, except_bind_ok]
  have hbeq : (s == "") = false := beq_eq_false_iff_ne.mpr hne
  have htr : pyTruthy (.str s) = true := by simp [pyTruthy, hbeq]
  simp [generate_text, tryBody, h402, h46, hec, htr, pySliceable, validateGeneratedText]

/-- C1 witness: a concrete 200 upstream response whose content is the
non-empty string Hello is passed through unchanged with no alert. -/
theorem c1_success_content_passthrough_witness :
    generate_text "app.log" (.response 200 (.ok (.obj [("choices",
        .arr [.obj [("message", .obj [("content", .str "Hello")])]])])) "raw") =
      (.success "Hello", []) :=
  c1_success_content_passthrough "app.log" "raw" 200
    [("choices", .arr [.obj [("message", .obj [("content", .str "Hello")])]])]
    [("message", .obj [("content", .str "Hello")])]
    [("content", .str "Hello")] [] "Hello"
    (by decide) (by decide) rfl rfl rfl (by decide)

/-- C2 counterexample: with upstream status 402 and a body that is not
parseable JSON, Response.json raises JSONDecodeError, which is a
RequestException, so the handler returns 503 with one alert invocation
rather than 402 with none. -/
theorem c2_counterexample :
    generate_text "app.log"
        (.response 402 (.error "Expecting value: line 1 column 1 (char 0)") "pay") =
      (.error 503 (networkDetail "app.log"),
       [⟨"Network error: " ++ "Expecting value: line 1 column 1 (char 0)", .requestData⟩]) := rfl

/-- C2 amended: when the upstream POST returns status 402 with a body
that is a JSON object whose error field is absent or itself an object,
the handler returns 402 with the account-credit guidance detail and the
alert notifier is not invoked. -/
theorem c2_credit_402 (lf text : String) (kvs : List (String × Json))
    (herr : lookupField kvs "error" = none ∨
      ∃ efs, lookupField kvs "error" = some (.obj efs)) :
    ∃ m, generate_text lf (.response 402 (.ok (.obj kvs)) text) =
      (.error 402 ("OpenRouter API credit issue: " ++ m ++
        ". Please visit https://openrouter.ai/settings/credits to upgrade your account."), []) := by
  have hcd : ∃ m, creditDetail (.obj kvs) = .ok ("OpenRouter API credit issue: " ++ m ++
      ". Please visit https://openrouter.ai/settings/credits to upgrade your account.") := by
    rcases herr with h | ⟨efs, h⟩
    · exact ⟨"Insufficient credits",
        by simp [creditDetail, pyDictGet, h, lookupField, pyStr, except_bind_ok, except_pure]⟩
    · exact ⟨pyStr ((lookupField efs "message").getD (.str "Insufficient credits")),
        by simp [creditDetail, pyDictGet, h, except_bind_ok, except_pure]⟩
  rcases hcd with ⟨m, hm⟩
  exact ⟨m, by simp [generate_text, tryBody, hm, handleExc]⟩

/-- C2 witness: a concrete 402 with a well-formed error object yields the
402 credit response with no alert. -/
theorem c2_credit_402_witness :
    ∃ m, generate_text "app.log"
        (.response 402 (.ok (.obj [("error", .obj [("message", .str "No credits")])])) "pay") =
      (.error 402 ("OpenRouter API credit issue: " ++ m ++
        ". Please visit https://openrouter.ai/settings/credits to upgrade your account."), []) :=
  c2_credit_402 "app.log" "pay" [("error", .obj [("message", .str "No credits")])]
    (Or.inr ⟨[("message", .str "No credits")], rfl⟩)

/-- C3 counterexample: a 402 upstream response with an empty JSON object
body ends in an error response, yet no alert attempt is made. -/
theorem c3_counterexample :
    generate_text "app.log" (.response 402 (.ok (.obj [])) "body") =
      (.error 402 ("OpenRouter API credit issue: " ++ "Insufficient credits" ++
        ". Please visit https://openrouter.ai/settings/credits to upgrade your account."), []) := rfl

/-- C3 amended: every call ending in an error response makes exactly one
alert attempt, except the 402 credit responses, which make none. -/
theorem c3_alert_exactly_one (lf : String) (up : UpstreamResult) (st : Nat) (d : String)
    (herr : (generate_text lf up).1 = .error st d) :
    (st ≠ 402 → (generate_text lf up).2.length = 1) ∧
    (st = 402 → (generate_text lf up).2 = []) := by
  rcases generate_text_cases lf up with ⟨s, h⟩ | ⟨d2, h⟩ | ⟨st2, d2, a, h, hset⟩
  · rw [h] at herr
    exact absurd herr (by simp)
  · rw [h] at herr
    have hst : 402 = st := by injection herr
    constructor
    · intro hne
      exact absurd hst.symm hne
    · intro _
      rw [h]
  · rw [h] at herr
    have hst : st2 = st := by injection herr
    constructor
    · intro _
      rw [h]
      rfl
    · intro h402
      rw [← hst] at h402
      rcases hset with h5 | h5 | h5 | h5 <;> omega

/-- C3 witness: an upstream timeout ends in an error response with exactly
one alert attempt. -/
theorem c3_alert_exactly_one_witness :
    (generate_text "app.log" UpstreamResult.timeoutErr).2.length = 1 :=
  (c3_alert_exactly_one "app.log" .timeoutErr 504 timeoutDetail rfl).1 (by decide)

/-- C4 counterexample: a non-2xx upstream status outside 400..599 is not
mapped to 502 at all: raise_for_status does not raise for status 304, so
a 304 response with a well-formed body is returned as a 200 success with
no alert. -/
theorem c4_counterexample :
    generate_text "app.log" (.response 304 (.ok (.obj [("choices",
        .arr [.obj [("message", .obj [("content", .str "cached")])]])])) "not modified") =
      (.success "cached", []) := rfl

/-- C4 amended: for every upstream status in 400..599 other than 402 (the
statuses for which raise_for_status raises), the handler returns 502 with
a message differentiated by the upstream status (Authentication error
prefix for 401, pairwise distinct messages for 401, 403, 429, 500, the
generic message otherwise), and the alert notifier is invoked exactly once
with the upstream status and response body. -/
theorem c4_http_error_mapping (lf text : String) (status : Nat) (body : Except String Json)
    (hlo : 400 ≤ status) (hhi : status < 600) (hne : status ≠ 402) :
    generate_text lf (.response status body text) =
      (.error 502 (detail502 status),
       [⟨"OpenRouter API error: " ++ toString status, .requestAndResponse text⟩]) ∧
    (∃ t, detail502 401 = "Authentication error" ++ t) ∧
    detail502 401 ≠ detail502 403 ∧ detail502 401 ≠ detail502 429 ∧
    detail502 401 ≠ detail502 500 ∧ detail502 403 ≠ detail502 429 ∧
    detail502 403 ≠ detail502 500 ∧ detail502 429 ≠ detail502 500 ∧
    (status ≠ 401 → status ≠ 403 → status ≠ 429 → status ≠ 500 →
      detail502 status = "Error communicating with OpenRouter API: Status code " ++ toString status) := by
  have h46 : 400 ≤ status ∧ status < 600 := ⟨hlo, hhi⟩
  refine ⟨?_,
    ⟨": Your OpenRouter API key is invalid or expired. Please check your API key in the .env file.",
     rfl⟩, by decide, by decide, by decide, by decide, by decide, by decide, ?_⟩
  · simp [generate_text, tryBody, hne, h46, handleExc]
  · intro h1 h3 h9 h5
    simp [detail502, h1, h3, h9, h5]

/-- C4 witness: a concrete upstream 401 is mapped to 502 with the
authentication detail and one alert carrying the status and body. -/
theorem c4_http_error_mapping_witness :
    generate_text "app.log" (.response 401 (.ok (.obj [])) "unauthorized") =
      (.error 502 (detail502 401),
       [⟨"OpenRouter API error: " ++ toString 401, .requestAndResponse "unauthorized"⟩]) :=
  (c4_http_error_mapping "app.log" "unauthorized" 401 (.ok (.obj []))
    (by decide) (by decide) (by decide)).1

/-- C5 counterexample: a 200 upstream response whose choices field is the
empty list raises IndexError at the subscript, which the generic except
clause turns into the unexpected-error 500 detail, not the
invalid-response wording the claim states. The response is 500 with one
alert, but the detail differs. -/
theorem c5_counterexample :
    generate_text "app.log" (.response 200 (.ok (.obj [("choices", .arr [])])) "t") =
      (.error 500 (unexpectedDetail "app.log"),
       [⟨"Unexpected server error: " ++ "IndexError", .requestData⟩]) ∧
    unexpectedDetail "app.log" ≠ invalidResponseDetail := ⟨rfl, by decide⟩

/-- C5 amended: for every 200 upstream response whose JSON object body
has an empty list at choices, the handler returns status 500 and the
alert notifier is invoked exactly once; the detail is the generic
unexpected-error message produced by the IndexError path, not the
invalid-response wording. -/
theorem c5_empty_choices_500 (lf text : String) (kvs : List (String × Json))
    (hch : lookupField kvs "choices" = some (.arr [])) :
    generate_text lf (.response 200 (.ok (.obj kvs)) text) =
      (.error 500 (unexpectedDetail lf),
       [⟨"Unexpected server error: " ++ "IndexError", .requestData⟩]) := by
  have hec : extractContent (.obj kvs) = .error (.otherExc "IndexError") := by
    simp [extractContent, pyDictGet, hch, pyIndexZero, except_bind_ok, except_bind_error]
  simp [generate_text, tryBody, hec, handleExc]

/-- C5 witness: a concrete 200 response with empty choices yields 500 and
one alert. -/
theorem c5_empty_choices_500_witness :
    generate_text "log2" (.response 200 (.ok (.obj [("choices", .arr [])])) "w") =
      (.error 500 (unexpectedDetail "log2"),
       [⟨"Unexpected server error: " ++ "IndexError", .requestData⟩]) :=
  c5_empty_choices_500 "log2" "w" [("choices", .arr [])] rfl

/-- C6 counterexample: a 200 upstream response with an unparseable body
makes Response.json raise JSONDecodeError, a RequestException, so the
network-error clause returns 503 with one alert, not 500 as the claim
states. -/
theorem c6_counterexample :
    generate_text "app.log"
        (.response 200 (.error "Expecting value: line 2 column 1 (char 1)") "oops") =
      (.error 503 (networkDetail "app.log"),
       [⟨"Network error: " ++ "Expecting value: line 2 column 1 (char 1)", .requestData⟩]) := rfl

/-- C6 amended: for every 2xx upstream response whose body is not
parseable as JSON, the handler returns an error response with status 503
(the JSON decode error is a RequestException caught by the network-error
clause) and one alert. -/
theorem c6_malformed_body_503 (lf text m : String) (status : Nat)
    (hlo : 200 ≤ status) (hhi : status < 300) :
    generate_text lf (.response status (.error m) text) =
      (.error 503 (networkDetail lf), [⟨"Network error: " ++ m, .requestData⟩]) := by
  have h402 : status ≠ 402 := by omega
  have h46 : ¬(400 ≤ status ∧ status < 600) := by omega
  simp [generate_text, tryBody, h402, h46, handleExc]

/-- C6 witness: a concrete 201 response with a malformed body yields the
503 network-error response with one alert. -/
theorem c6_malformed_body_503_witness :
    generate_text "log3" (.response 201 (.error "bad json") "x") =
      (.error 503 (networkDetail "log3"),
       [⟨"Network error: " ++ "bad json", .requestData⟩]) :=
  c6_malformed_body_503 "log3" "x" "bad json" 201 (by decide) (by decide)

/-- C7: for every possible upstream outcome, the generate handler either
returns a success carrying generated_text (status 200) or an error whose
status is one of 402, 500, 502, 503, 504, and never any other status. -/
theorem c7_status_envelope (lf : String) (up : UpstreamResult) :
    (∃ s, (generate_text lf up).1 = .success s) ∨
    (∃ st d, (generate_text lf up).1 = .error st d ∧
      (st = 402 ∨ st = 500 ∨ st = 502 ∨ st = 503 ∨ st = 504)) := by
  rcases generate_text_cases lf up with ⟨s, h⟩ | ⟨d, h⟩ | ⟨st, d, a, h, hset⟩
  · exact Or.inl ⟨s, by rw [h]⟩
  · exact Or.inr ⟨402, d, by rw [h], Or.inl rfl⟩
  · exact Or.inr ⟨st, d, by rw [h], by tauto⟩

/-- C8: for every configured webhook URL and every webhook POST outcome,
the alert notifier returns normally (never an escaping exception), and
when the URL is unset it performs no POST at all (the noUrl branch). -/
theorem c8_alert_never_raises :
    (∀ (url : Option String) (wh : WebhookOutcome),
      ∃ log, trigger_n8n_alert url wh = .ok log) ∧
    (∀ wh : WebhookOutcome, trigger_n8n_alert none wh = .ok .noUrl) := by
  constructor
  · intro url wh
    by_cases h : pyFalsyStr url = true
    · exact ⟨.noUrl, by simp [trigger_n8n_alert, h]⟩
    · cases htp : triggerPost wh with
      | ok st => exact ⟨.sentOk st, by simp [trigger_n8n_alert, h, htp]⟩
      | error e =>
        by_cases hr : e.isRequestException = true
        · exact ⟨.requestExcCaught e, by simp [trigger_n8n_alert, h, htp, hr]⟩
        · exact ⟨.unexpectedExcCaught e, by simp [trigger_n8n_alert, h, htp, hr]⟩
  · intro wh
    rfl

/-- C9: a reload replaces the process-wide key and webhook URL with the
values read from the reloaded environment and reports success; subsequent
generate requests build their Authorization header from the updated key
and subsequent alert attempts target the updated webhook URL. -/
theorem c9_reload_updates_config (env : String → Option String) (prev : AppState) :
    (reload_environment env prev).1 =
      ⟨env "OPENROUTER_API_KEY", env "N8N_WEBHOOK_URL"⟩ ∧
    (reload_environment env prev).2 =
      .ok ⟨"success", "Environment variables reloaded successfully"⟩ ∧
    generate_headers (reload_environment env prev).1.OPENROUTER_API_KEY =
      [("Authorization", "Bearer " ++ pyFStrOpt (env "OPENROUTER_API_KEY")),
       ("Content-Type", "application/json")] ∧
    ∀ wh, trigger_n8n_alert (reload_environment env prev).1.N8N_WEBHOOK_URL wh =
      trigger_n8n_alert (env "N8N_WEBHOOK_URL") wh :=
  ⟨rfl, rfl, rfl, fun _ => rfl⟩

/-- C10: reloading from an environment missing both variables still
reports success and sets both globals to none; the startup fail-fast
check would reject these values but is not re-run, so subsequent generate
requests send the header Bearer None and every alert attempt no-ops. -/
theorem c10_reload_skips_startup_check (prev : AppState) :
    (reload_environment (fun _ => none) prev).1 = ⟨none, none⟩ ∧
    (reload_environment (fun _ => none) prev).2 =
      .ok ⟨"success", "Environment variables reloaded successfully"⟩ ∧
    startup_check none none =
      .error "OPENROUTER_API_KEY environment variable is not set." ∧
    generate_headers none =
      [("Authorization", "Bearer " ++ "None"), ("Content-Type", "application/json")] ∧
    ∀ wh, trigger_n8n_alert none wh = .ok .noUrl :=
  ⟨rfl, rfl, rfl, rfl, fun _ => rfl⟩

end GPTService
